import Mathlib

/-!
Shallow embedding of `src/src/components/PSAChecker.tsx` from the
`Alohacardshop/psa-cert-check` repository.

The component keeps five pieces of React state (`apiKey`, `certNumber`,
`loading`, `result`, `error`) and exposes one operation,
`checkCertificate`, which validates the inputs, performs at most one
`fetch` call, and updates the state.  The browser `fetch` API is embedded
as an explicit transport function `Request → FetchResult`; the requests it
receives are logged so that theorems can count transport invocations.
`response.json()` is embedded as a field of the stubbed `Response`: either
a parsed JSON value or a parse-error message, mirroring the promise that
either resolves with the parsed body or rejects.
-/

/-- JSON values, the result of a successful `response.json()`. -/
inductive JsonVal where
  | null : JsonVal
  | bool : Bool → JsonVal
  | num : Int → JsonVal
  | str : String → JsonVal
  | arr : List JsonVal → JsonVal
  | obj : List (String × JsonVal) → JsonVal

/-- JavaScript whitespace characters relevant to `String.prototype.trim`
(the common ASCII ones). -/
def isJsWhitespace (c : Char) : Bool :=
  c = ' ' || c = '\t' || c = '\n' || c = '\r'

/-- Embedding of JavaScript `s.trim()`: strip leading and trailing
whitespace. -/
def jsTrim (s : String) : String :=
  String.mk (((s.toList.dropWhile isJsWhitespace).reverse.dropWhile
    isJsWhitespace).reverse)

/-- Embedding of JavaScript `s.substring(0, n)` (end index past the end of
the string is clamped): the first `n` characters. -/
def jsSubstringTake (s : String) (n : Nat) : String :=
  String.mk (s.toList.take n)

/-- Whether `pat` occurs contiguously somewhere in `l`. -/
def listContains (pat : List Char) : List Char → Bool
  | [] => List.isPrefixOf pat []
  | c :: rest => List.isPrefixOf pat (c :: rest) || listContains pat rest

/-- Whether `pat` occurs as a contiguous substring of `s`. -/
def strContains (s pat : String) : Bool :=
  listContains pat.toList s.toList

/-- A toast notification as issued by `useToast` in the component. -/
structure Toast where
  title : String
  description : String
  destructive : Bool
  deriving DecidableEq

/-- An outbound HTTP request as passed to `fetch` (the cors mode option
is fixed in the source and carries no data). -/
structure Request where
  url : String
  method : String
  headers : List (String × String)
  deriving DecidableEq

/-- A stubbed HTTP response.  `jsonBody` embeds the behaviour of
`response.json()`: `.ok v` when the body parses to the JSON value `v`,
`.error m` when parsing rejects with message `m`. -/
structure Response where
  status : Nat
  jsonBody : Except String JsonVal

/-- Embedding of `response.ok` per the Fetch standard: status in the
range 200–299. -/
def Response.ok (r : Response) : Bool :=
  200 ≤ r.status && r.status ≤ 299

/-- Result of one transport invocation: either a response or a
network-level failure (`fetch` rejecting) with the message of the
underlying error. -/
inductive FetchResult where
  | success : Response → FetchResult
  | netError : String → FetchResult

/-- React state of the component: `useState` hooks from
`PSAChecker.tsx` lines 24–28. -/
structure CheckerState where
  apiKey : String
  certNumber : String
  loading : Bool
  result : Option JsonVal
  error : Option String

/-- Initial state of a freshly mounted component:
`useState("")` for the key, `useState("79909125")` for the certificate
number, not loading, no result, no error. -/
def initState : CheckerState :=
  { apiKey := "", certNumber := "79909125", loading := false,
    result := none, error := none }

/-- State setter `setApiKey`. -/
def setApiKey (s : CheckerState) (v : String) : CheckerState :=
  { s with apiKey := v }

/-- State setter `setCertNumber`. -/
def setCertNumber (s : CheckerState) (v : String) : CheckerState :=
  { s with certNumber := v }

/-- Remounting / reinitialising the component.  The source keeps its state
in plain `useState` hooks with literal initial values and reads nothing
from durable storage, so a reinitialised component starts from
`initState` whatever the previous state was. -/
def remount (_s : CheckerState) : CheckerState :=
  initState

/-- The toast issued when the API key is blank (lines 33–37). -/
def apiKeyRequiredToast : Toast :=
  { title := "API Key Required",
    description := "Please enter your PSA API key",
    destructive := true }

/-- The toast issued when the certificate number is blank (lines 42–46). -/
def certNumberRequiredToast : Toast :=
  { title := "Certificate Number Required",
    description := "Please enter a certificate number",
    destructive := true }

/-- The fixed leading part of the URL template on line 59. -/
def apiEndpoint : String :=
  "https://api.psacard.com/publicapi/cert/GetByCertNumber/"

/-- The request constructed on lines 56–70: URL template with the raw
certificate number interpolated, method GET, and the single
`authorization: bearer <key>` header from the `settings` object. -/
def buildRequest (apiKey certNumber : String) : Request :=
  { url := apiEndpoint ++ certNumber,
    method := "GET",
    headers := [("authorization", "bearer " ++ apiKey)] }

/-- The message of the error thrown on line 73 for a non-ok response. -/
def httpErrorMessage (status : Nat) : String :=
  "HTTP error! status: " ++ toString status

/-- The success toast issued on lines 79–82. -/
def certificateFoundToast (certNumber : String) : Toast :=
  { title := "Certificate Found",
    description := "Successfully retrieved data for cert #" ++ certNumber,
    destructive := false }

/-- The failure toast issued in the catch block (lines 86–90). -/
def errorToast (msg : String) : Toast :=
  { title := "Error", description := msg, destructive := true }

/-- Result of one `checkCertificate` invocation: the final component
state, the list of requests handed to the transport (one entry per
transport invocation), and the toasts issued. -/
structure CheckResult where
  state : CheckerState
  requests : List Request
  toasts : List Toast

/-- Embedding of `checkCertificate` (lines 31–94).  Validation of the two
trimmed inputs happens before any state change or network activity; on
valid input exactly one request is issued, a non-2xx status throws
`HTTP error! status: <n>`, a 2xx status parses the body, and every thrown
error lands in the catch block which stores the message and raises a
destructive "Error" toast.  `finally` clears `loading`. -/
def checkCertificate (s : CheckerState) (transport : Request → FetchResult) :
    CheckResult :=
  if jsTrim s.apiKey = "" then
    { state := s, requests := [], toasts := [apiKeyRequiredToast] }
  else if jsTrim s.certNumber = "" then
    { state := s, requests := [], toasts := [certNumberRequiredToast] }
  else
    let req := buildRequest s.apiKey s.certNumber
    match transport req with
    | .success resp =>
      if resp.ok then
        match resp.jsonBody with
        | .ok data =>
          { state := { s with loading := false, result := some data, error := none },
            requests := [req],
            toasts := [certificateFoundToast s.certNumber] }
        | .error msg =>
          { state := { s with loading := false, result := none, error := some msg },
            requests := [req],
            toasts := [errorToast msg] }
      else
        { state := { s with loading := false, result := none, error := some (httpErrorMessage resp.status) },
          requests := [req],
          toasts := [errorToast (httpErrorMessage resp.status)] }
    | .netError msg =>
      { state := { s with loading := false, result := none, error := some msg },
        requests := [req],
        toasts := [errorToast msg] }

/-- Tagged `LookupOutcome` value from the spec, read off the component
state. -/
inductive LookupOutcome where
  | Idle : LookupOutcome
  | InFlight : LookupOutcome
  | Success : JsonVal → LookupOutcome
  | Failure : String → LookupOutcome

/-- Classify a component state as a `LookupOutcome`. -/
def outcomeOf (s : CheckerState) : LookupOutcome :=
  if s.loading then .InFlight
  else
    match s.error with
    | some m => .Failure m
    | none =>
      match s.result with
      | some d => .Success d
      | none => .Idle

/-- The elided credential shown in the snippets (line 313):
`apiKey ? apiKey.substring(0, 20) + ... : YOUR_API_KEY`. -/
def elideApiKey (apiKey : String) : String :=
  if apiKey = "" then "YOUR_API_KEY" else jsSubstringTake apiKey 20 ++ "..."

/-- The certificate number shown in the snippets (line 310):
`certNumber || CERT_NUMBER` (empty strings are falsy in JavaScript). -/
def displayCertNumber (certNumber : String) : String :=
  if certNumber = "" then "CERT_NUMBER" else certNumber

/-- The JavaScript-fetch snippet rendered in the "JavaScript" tab
(lines 309–321), as a pure function of the two field values. -/
def renderFetchSnippet (apiKey certNumber : String) : String :=
  "// Modern JavaScript Fetch API\n" ++
  "const response = await fetch(\"https://api.psacard.com/publicapi/cert/GetByCertNumber/" ++
  displayCertNumber certNumber ++ "\", \x7b\n" ++
  "  method: \"GET\",\n" ++
  "  headers: \x7b\n" ++
  "    \"authorization\": \"bearer " ++ elideApiKey apiKey ++ "\",\n" ++
  "    \"Accept\": \"application/json\",\n" ++
  "    \"Content-Type\": \"application/json\"\n" ++
  "  \x7d,\n" ++
  "  mode: \"cors\"\n" ++
  "\x7d);\n\n" ++
  "const data = await response.json();\n" ++
  "console.log(data);"

/-! Concrete objects used to instantiate the theorems below. -/

/-- The JSON object parsed from `\x7b"certNumber":"79909125","grade":"10"\x7d`. -/
def sampleCertJson : JsonVal :=
  .obj [("certNumber", .str "79909125"), ("grade", .str "10")]

/-- A state with credential `"tok"` and the default certificate number. -/
def validState : CheckerState :=
  { initState with apiKey := "tok" }

/-- A stub transport answering 200 with the sample JSON body. -/
def ok200Transport : Request → FetchResult :=
  fun _ => .success { status := 200, jsonBody := .ok sampleCertJson }

/-- A stub transport that fails at the network level; used where the
transport is irrelevant or unreachable. -/
def netErrorTransport : Request → FetchResult :=
  fun _ => .netError "Failed to fetch"

/-- A state with blank credential and a stale failure message left over
from an earlier lookup. -/
def staleErrorState : CheckerState :=
  { apiKey := "", certNumber := "79909125", loading := false,
    result := none, error := some "HTTP error! status: 404" }

/-- A state whose credential and certificate number carry surrounding
whitespace but are non-empty after trimming. -/
def paddedState : CheckerState :=
  { apiKey := " tok ", certNumber := " 79909125 ", loading := false,
    result := none, error := none }

/-! Helper lemmas shared by the claim theorems. -/

theorem isPrefixOf_self (l : List Char) : List.isPrefixOf l l = true := by
  induction l with
  | nil => rfl
  | cons c t ih => simp [List.isPrefixOf, ih]

theorem listContains_append_self (pat l : List Char) :
    listContains pat (l ++ pat) = true := by
  induction l with
  | nil =>
    cases pat with
    | nil => rfl
    | cons c t => simp [listContains, isPrefixOf_self]
  | cons c t ih => simp [listContains, ih]

theorem strContains_append_right (a b : String) :
    strContains (a ++ b) b = true := by
  unfold strContains
  have h : (a ++ b).toList = a.toList ++ b.toList := by
    simp [String.toList]
  rw [h]
  exact listContains_append_self _ _

theorem checkCertificate_requests_of_valid (s : CheckerState)
    (transport : Request → FetchResult)
    (hk : ¬ jsTrim s.apiKey = "") (hc : ¬ jsTrim s.certNumber = "") :
    (checkCertificate s transport).requests =
      [buildRequest s.apiKey s.certNumber] := by
  simp only [checkCertificate, if_neg hk, if_neg hc]
  cases htr : transport (buildRequest s.apiKey s.certNumber) with
  | success resp =>
    cases hok : resp.ok with
    | true => cases hjson : resp.jsonBody <;> simp [hok, hjson]
    | false => simp [hok]
  | netError msg => simp

theorem checkCertificate_of_invalid (s : CheckerState)
    (transport : Request → FetchResult)
    (h : jsTrim s.apiKey = "" ∨ jsTrim s.certNumber = "") :
    (checkCertificate s transport).state = s ∧
      (checkCertificate s transport).requests = [] ∧
      ((checkCertificate s transport).toasts = [apiKeyRequiredToast] ∨
        (checkCertificate s transport).toasts = [certNumberRequiredToast]) := by
  rcases h with h | h
  · simp [checkCertificate, h]
  · by_cases h2 : jsTrim s.apiKey = "" <;> simp [checkCertificate, h, h2]

/-- C1: for every credential or certificate-identifier input that is
empty or only whitespace after trimming, `checkCertificate` issues a
validation toast (the user-facing validation-error outcome) and invokes
the transport zero times. -/
theorem c1_validation_no_network (s : CheckerState)
    (transport : Request → FetchResult)
    (h : jsTrim s.apiKey = "" ∨ jsTrim s.certNumber = "") :
    (checkCertificate s transport).requests = [] ∧
      ((checkCertificate s transport).toasts = [apiKeyRequiredToast] ∨
        (checkCertificate s transport).toasts = [certNumberRequiredToast]) :=
  ⟨(checkCertificate_of_invalid s transport h).2.1,
   (checkCertificate_of_invalid s transport h).2.2⟩

/-- Witness for C1 at the whitespace-only credential input. -/
theorem c1_witness :
    (checkCertificate { initState with apiKey := " " } netErrorTransport).requests = [] ∧
      ((checkCertificate { initState with apiKey := " " } netErrorTransport).toasts = [apiKeyRequiredToast] ∨
        (checkCertificate { initState with apiKey := " " } netErrorTransport).toasts = [certNumberRequiredToast]) :=
  c1_validation_no_network { initState with apiKey := " " } netErrorTransport
    (Or.inl (by decide))

/-- C2 counterexample: the claim says the outbound request carries the
headers Accept and Content-Type besides the authorization header; at the
concrete valid input (credential "tok", identifier "79909125") the one
request issued carries neither. -/
theorem c2_counterexample :
    (checkCertificate validState ok200Transport).requests =
        [buildRequest "tok" "79909125"] ∧
      ("Accept", "application/json") ∉ (buildRequest "tok" "79909125").headers ∧
      ("Content-Type", "application/json") ∉ (buildRequest "tok" "79909125").headers := by
  refine ⟨rfl, ?_, ?_⟩ <;> decide

/-- C2 (amended): for every valid (trimmed non-empty) credential and
identifier, the outbound request carries exactly one header,
`authorization: bearer <credential>` with the lowercase scheme literal;
Accept and Content-Type appear only in displayed snippet text. -/
theorem c2_amended_single_auth_header (s : CheckerState)
    (transport : Request → FetchResult)
    (hk : ¬ jsTrim s.apiKey = "") (hc : ¬ jsTrim s.certNumber = "") :
    (checkCertificate s transport).requests.map Request.headers =
      [[("authorization", "bearer " ++ s.apiKey)]] := by
  rw [checkCertificate_requests_of_valid s transport hk hc]
  rfl

/-- Witness for the amended C2 at credential "tok". -/
theorem c2_witness :
    (checkCertificate validState ok200Transport).requests.map Request.headers =
      [[("authorization", "bearer " ++ validState.apiKey)]] :=
  c2_amended_single_auth_header validState ok200Transport (by decide) (by decide)

/-- C3: for every transport response with status outside 200 to 299,
`checkCertificate` yields a Failure whose message is the thrown
HTTP-error text, and that message contains the numeric status code as a
substring. -/
theorem c3_nonsuccess_status_failure (s : CheckerState) (resp : Response)
    (hk : ¬ jsTrim s.apiKey = "") (hc : ¬ jsTrim s.certNumber = "")
    (hstatus : resp.status < 200 ∨ 299 < resp.status) :
    outcomeOf (checkCertificate s (fun _ => .success resp)).state =
        .Failure (httpErrorMessage resp.status) ∧
      strContains (httpErrorMessage resp.status) (toString resp.status) = true := by
  have hok : resp.ok = false := by
    rcases hstatus with h | h
    · have h1 : ¬ 200 ≤ resp.status := by omega
      simp [Response.ok, h1]
    · have h1 : ¬ resp.status ≤ 299 := by omega
      simp [Response.ok, h1]
  constructor
  · simp [checkCertificate, if_neg hk, if_neg hc, hok, outcomeOf]
  · exact strContains_append_right _ _

/-- Witness for C3 at status 404: the failure message contains "404". -/
theorem c3_witness :
    outcomeOf (checkCertificate validState
        (fun _ => .success { status := 404, jsonBody := .ok .null })).state =
        .Failure (httpErrorMessage 404) ∧
      strContains (httpErrorMessage 404) "404" = true :=
  c3_nonsuccess_status_failure validState
    { status := 404, jsonBody := .ok .null }
    (by decide) (by decide) (Or.inr (by decide))

/-- C4: with credential "tok", identifier "79909125" and a transport
answering 200 with the body parsing to the sample certificate object,
`checkCertificate` yields Success carrying exactly that parsed object. -/
theorem c4_success_exact_payload :
    outcomeOf (checkCertificate validState ok200Transport).state =
      .Success sampleCertJson := by
  rfl

/-- C5: for every 2xx response whose body fails to parse as JSON,
`checkCertificate` yields a Failure carrying the parse-error message,
never a Success. -/
theorem c5_parse_error_failure (s : CheckerState) (status : Nat) (msg : String)
    (hk : ¬ jsTrim s.apiKey = "") (hc : ¬ jsTrim s.certNumber = "")
    (h1 : 200 ≤ status) (h2 : status ≤ 299) :
    outcomeOf (checkCertificate s
        (fun _ => .success { status := status, jsonBody := .error msg })).state =
      .Failure msg := by
  have hok : ({ status := status, jsonBody := .error msg } : Response).ok = true := by
    simp [Response.ok, h1, h2]
  simp [checkCertificate, if_neg hk, if_neg hc, hok, outcomeOf]

/-- Witness for C5 at status 200 with an unparsable body. -/
theorem c5_witness :
    outcomeOf (checkCertificate validState
        (fun _ => .success { status := 200, jsonBody := .error "Unexpected token o" })).state =
      .Failure "Unexpected token o" :=
  c5_parse_error_failure validState 200 "Unexpected token o"
    (by decide) (by decide) (by decide) (by decide)

/-- C6: for every valid input, `checkCertificate` invokes the transport
exactly once, with a GET request whose URL is the fixed template
followed by the certificate identifier. -/
theorem c6_single_get_request (s : CheckerState)
    (transport : Request → FetchResult)
    (hk : ¬ jsTrim s.apiKey = "") (hc : ¬ jsTrim s.certNumber = "") :
    (checkCertificate s transport).requests =
      [{ url := "https://api.psacard.com/publicapi/cert/GetByCertNumber/" ++ s.certNumber,
         method := "GET",
         headers := [("authorization", "bearer " ++ s.apiKey)] }] :=
  checkCertificate_requests_of_valid s transport hk hc

/-- Witness for C6 at credential "tok" and the default identifier. -/
theorem c6_witness :
    (checkCertificate validState ok200Transport).requests =
      [{ url := "https://api.psacard.com/publicapi/cert/GetByCertNumber/" ++ validState.certNumber,
         method := "GET",
         headers := [("authorization", "bearer " ++ validState.apiKey)] }] :=
  c6_single_get_request validState ok200Transport (by decide) (by decide)

/-- C7 counterexample: the claim says a credential written before
reinitialization is restored afterwards; setting the credential to "abc"
and reinitializing restores the empty string, not "abc" — the component
keeps no durable storage. -/
theorem c7_counterexample :
    (remount (setApiKey initState "abc")).apiKey ≠ "abc" := by
  decide

/-- C7 (amended): reinitializing the state manager always yields the
literal initial values — empty credential and identifier "79909125" —
regardless of previously set values, because no value is persisted. -/
theorem c7_amended_reinit_defaults (s : CheckerState) :
    (remount s).apiKey = "" ∧ (remount s).certNumber = "79909125" :=
  ⟨rfl, rfl⟩

/-- C8 counterexample: the claim says a validation-rejected call leaves
the outcome state Idle with no error; starting from a state holding a
stale failure message and a blank credential, the call leaves the stale
error in place, so the outcome is Failure, not Idle. -/
theorem c8_counterexample :
    outcomeOf (checkCertificate staleErrorState netErrorTransport).state ≠ .Idle ∧
      (checkCertificate staleErrorState netErrorTransport).state.error =
        some "HTTP error! status: 404" := by
  constructor
  · intro h
    exact LookupOutcome.noConfusion h
  · rfl

/-- C8 (amended): when the trimmed-non-empty precondition is violated,
`checkCertificate` returns immediately with the component state entirely
unchanged (so the outcome is Idle only if it already was), makes no
network call, and signals the validation error through a validation
toast distinct from a network Failure. -/
theorem c8_amended_state_unchanged (s : CheckerState)
    (transport : Request → FetchResult)
    (h : jsTrim s.apiKey = "" ∨ jsTrim s.certNumber = "") :
    (checkCertificate s transport).state = s ∧
      (checkCertificate s transport).requests = [] ∧
      ((checkCertificate s transport).toasts = [apiKeyRequiredToast] ∨
        (checkCertificate s transport).toasts = [certNumberRequiredToast]) :=
  checkCertificate_of_invalid s transport h

/-- Witness for the amended C8 at the stale-error state. -/
theorem c8_witness :
    (checkCertificate staleErrorState netErrorTransport).state = staleErrorState ∧
      (checkCertificate staleErrorState netErrorTransport).requests = [] ∧
      ((checkCertificate staleErrorState netErrorTransport).toasts = [apiKeyRequiredToast] ∨
        (checkCertificate staleErrorState netErrorTransport).toasts = [certNumberRequiredToast]) :=
  c8_amended_state_unchanged staleErrorState netErrorTransport (Or.inl (by decide))

/-- C9: the fetch snippet rendered for credential "tok" and identifier
"79909125" contains the literal substrings GetByCertNumber/79909125 and
bearer tok (the elided form of "tok" keeps it as a prefix), and the
elision never reaches the actual request, whose header carries the
credential verbatim. -/
theorem c9_fetch_snippet :
    strContains (renderFetchSnippet "tok" "79909125") "GetByCertNumber/79909125" = true ∧
      strContains (renderFetchSnippet "tok" "79909125") "bearer tok" = true ∧
      (buildRequest "tok" "79909125").headers = [("authorization", "bearer tok")] := by
  refine ⟨?_, ?_, rfl⟩ <;> decide

/-- C10: for every credential and identifier that are non-empty after
trimming but differ from their trimmed forms, the request embeds the raw
untrimmed strings verbatim in the URL and the authorization header —
trimming feeds only the emptiness check. -/
theorem c10_raw_untrimmed_sent (s : CheckerState)
    (transport : Request → FetchResult)
    (hk : ¬ jsTrim s.apiKey = "") (hc : ¬ jsTrim s.certNumber = "")
    (hkw : s.apiKey ≠ jsTrim s.apiKey) (hcw : s.certNumber ≠ jsTrim s.certNumber) :
    (checkCertificate s transport).requests.map Request.url =
        [apiEndpoint ++ s.certNumber] ∧
      (checkCertificate s transport).requests.map Request.headers =
        [[("authorization", "bearer " ++ s.apiKey)]] := by
  rw [checkCertificate_requests_of_valid s transport hk hc]
  exact ⟨rfl, rfl⟩

/-- Witness for C10 at the whitespace-padded credential and identifier. -/
theorem c10_witness :
    (checkCertificate paddedState netErrorTransport).requests.map Request.url =
        [apiEndpoint ++ " 79909125 "] ∧
      (checkCertificate paddedState netErrorTransport).requests.map Request.headers =
        [[("authorization", "bearer  tok ")]] :=
  c10_raw_untrimmed_sent paddedState netErrorTransport
    (by decide) (by decide) (by decide) (by decide)
